import Mathlib

/-!
Verification of the GitHub-issue-summarizer webhook service (`src/app.py`).

The development shallowly embeds the four functions the specification talks
about: `create_jwt`, `get_installation_token`, `add_comment_to_issue` and the
Flask route handler `github_webhook`.  External effects (the Gemini model
call, the two outbound HTTP POSTs) are modelled by passing in their outcomes
explicitly; the handler returns, besides the HTTP status and response body,
the list of outbound calls it performed, in order.  Python exceptions are
modelled with `Except String`, the error carrying the exception class name.
Python truthiness of optional strings and integers is modelled exactly
(`None` and `""` are falsy; `None` and `0` are falsy).
-/

namespace App

/-- Python truthiness of an `Optional[str]`: `None` and `""` are falsy. -/
def strOptTruthy : Option String → Bool
  | none => false
  | some s => s != ""

/-- Python truthiness of an `Optional[int]`: `None` and `0` are falsy. -/
def intOptTruthy : Option Int → Bool
  | none => false
  | some i => i != 0

/-- Python `f"{x}"` on an `Optional[str]`: `None` renders as `"None"`. -/
def pyStr : Option String → String
  | none => "None"
  | some s => s

/-- The process-wide configuration read at startup: `GITHUB_APP_ID`,
`GITHUB_PRIVATE_KEY` (both `Optional[str]`) and whether the Gemini `model`
object was initialized (`model is not None`). -/
structure Config where
  app_id : Option String
  private_key : Option String
  model_ok : Bool

/-- Line 117 of `app.py`: `GITHUB_APP_ID and GITHUB_PRIVATE_KEY and model`. -/
def Config.configured (cfg : Config) : Bool :=
  strOptTruthy cfg.app_id && strOptTruthy cfg.private_key && cfg.model_ok

/-- The fields of the webhook JSON payload that the handler reads.
`installation_id` models `payload.get("installation", {}).get("id")`:
`none` when either the `installation` object or its `id` key is absent. -/
structure Payload where
  action : Option String
  installation_id : Option Int
  issue_title : Option String
  issue_body : Option String
  issue_html_url : Option String
  issue_api_url : Option String

/-- An inbound `POST /webhook` request: the `X-GitHub-Event` header and the
parsed JSON body (`none` models `request.is_json` being false). -/
structure WebhookRequest where
  eventType : Option String
  payload : Option Payload

/-- Outcome of one `requests.post` call: either a response object (with a
status code, raw `content`, and the string fields of its parsed JSON body)
or a network-level failure in which `requests.post` itself raises a
`RequestException` and no response object is ever bound. -/
structure HttpResult where
  statusCode : Nat
  content : String
  jsonFields : List (String × String)

inductive RequestOutcome
  | response (r : HttpResult)
  | connectionError

/-- `dict` lookup on the parsed JSON body. -/
def lookupField : List (String × String) → String → Option String
  | [], _ => none
  | (k, v) :: rest, key => if k == key then some v else lookupField rest key

/-- Outcome of `model.generate_content`: a response whose `.text` is the
given string, or the call raising an exception. -/
inductive ModelOutcome
  | text (s : String)
  | raises

/-- Result of running one of the embedded Python functions: the returned
value (or the class name of an uncaught exception) together with the lines
it printed. -/
structure PyCall (α : Type) where
  result : Except String α
  logs : List String

/-- The JWT payload built by `create_jwt` (lines 49-59 of `app.py`):
`iat = now - 60`, `exp = now + 9 * 60`, `iss = app_id`.  Signing with the
private key (`jwt.encode`, RS256) is not modelled; the claims are about the
payload fields only. -/
structure JwtPayload where
  iat : Int
  exp : Int
  iss : String

def create_jwt (app_id : String) (now : Int) : JwtPayload :=
  { iat := now - 60, exp := now + 9 * 60, iss := app_id }

/-- `requests.Response.raise_for_status` raises iff the status is 4xx/5xx. -/
def raiseForStatusFails (r : HttpResult) : Bool := 400 ≤ r.statusCode

/-- `get_installation_token` (lines 62-86 of `app.py`), as a function of the
outcome of its single `requests.post` to the token-exchange endpoint.

* Network failure: `requests.post` raises a `RequestException`; the `except`
  block prints the error, then evaluates `response.content` with the local
  `response` never having been bound, raising `UnboundLocalError`.
* HTTP error status: `raise_for_status` raises, the handler prints the
  error and `response.content` and returns `None`.
* Success: prints the `expires_at` field and returns the `token` field of
  the JSON body (`KeyError` if a field is missing). -/
def get_installation_token (app_id private_key : String) (installation_id : Int)
    (outcome : RequestOutcome) : PyCall (Option String) :=
  match outcome with
  | .connectionError =>
      { result := .error "UnboundLocalError",
        logs := ["🚨 Error getting installation token: RequestException"] }
  | .response r =>
      if raiseForStatusFails r then
        { result := .ok none,
          logs := ["🚨 Error getting installation token: HTTPError",
                   "Response content: " ++ r.content] }
      else
        match lookupField r.jsonFields "expires_at" with
        | none => { result := .error "KeyError", logs := [] }
        | some ea =>
            match lookupField r.jsonFields "token" with
            | none =>
                { result := .error "KeyError",
                  logs := ["🔒 Installation Token Obtained (expires: " ++ ea ++ ")."] }
            | some t =>
                { result := .ok (some t),
                  logs := ["🔒 Installation Token Obtained (expires: " ++ ea ++ ")."] }

/-- `add_comment_to_issue` (lines 89-106 of `app.py`), as a function of the
outcome of its single `requests.post` to `<issue_url>/comments`.

* Network failure: as in `get_installation_token`, the `except` block's
  second print dereferences the unbound `response`, raising
  `UnboundLocalError`.
* HTTP error status: prints the error and the response body, returns
  `False`.
* Success: prints a confirmation and returns `True`. -/
def add_comment_to_issue (issue_url token comment_body : String)
    (outcome : RequestOutcome) : PyCall Bool :=
  match outcome with
  | .connectionError =>
      { result := .error "UnboundLocalError",
        logs := ["🚨 Error adding comment: RequestException"] }
  | .response r =>
      if raiseForStatusFails r then
        { result := .ok false,
          logs := ["🚨 Error adding comment: HTTPError",
                   "Response content: " ++ r.content] }
      else
        { result := .ok true,
          logs := ["💬 Comment added successfully to " ++ issue_url] }

/-- One outbound call performed while handling a webhook. -/
inductive Call
  | model (prompt : String)
  | tokenExchange (installation_id : Int)
  | comment (url : String) (body : String)
  deriving DecidableEq, Repr

/-- The outcomes the environment would hand to the handler's three outbound
calls, were they made. -/
structure Env where
  modelOutcome : ModelOutcome
  tokenOutcome : RequestOutcome
  commentOutcome : RequestOutcome

/-- The JSON bodies `github_webhook` can respond with. -/
inductive RespBody
  | configError
  | mustBeJson
  | missingInstallationId
  | success
  deriving DecidableEq, Repr

/-- HTTP status, response body, and the outbound calls made, in order. -/
structure HandlerResult where
  status : Nat
  body : RespBody
  calls : List Call
  deriving DecidableEq, Repr

/-- The prompt built on lines 145-149 of `app.py`. -/
def buildPrompt (title body : String) : String :=
  "Analyze this GitHub issue and provide a brief summary (1-2 sentences). Issue Title: "
    ++ title ++ "\nIssue Body:\n---\n" ++ body ++ "\n---"

/-- The comment body built on line 167 of `app.py`. -/
def buildComment (summary : String) : String :=
  "🤖 **Gemini Analysis:**\n\n" ++ summary

/-- The `issues`/`opened` processing block (lines 144-173 of `app.py`): the
`try` around model call → token exchange → comment post, whose exceptions
are all caught.  The comment post is guarded by `if access_token:` (line
165), i.e. Python truthiness of the `Optional[str]` returned by
`get_installation_token` — `None` and `""` both skip it.  Returns the
outbound calls made, in order. -/
def processOpenedIssue (cfg : Config) (payload : Payload) (instId : Int)
    (title body : String) (env : Env) : List Call :=
  let prompt := buildPrompt title body
  match env.modelOutcome with
  | .raises => [.model prompt]
  | .text t =>
      let summary := t.trim
      let tok := get_installation_token (pyStr cfg.app_id) (pyStr cfg.private_key)
        instId env.tokenOutcome
      match tok.result with
      | .error _ => [.model prompt, .tokenExchange instId]
      | .ok accessToken =>
          if strOptTruthy accessToken then
            let url := pyStr payload.issue_api_url
            let commentBody := buildComment summary
            let _ := add_comment_to_issue url (pyStr accessToken) commentBody
              env.commentOutcome
            [.model prompt, .tokenExchange instId, .comment url commentBody]
          else
            [.model prompt, .tokenExchange instId]

/-- The Flask route handler `github_webhook` (lines 113-177 of `app.py`).

In source order: config check (500 `config_error`), `request.is_json` check
(400), installation-id truthiness check (400 `missing_installation_id`),
then dispatch on event type/action; the `issues`/`opened` branch runs the
model → token → comment chain inside a `try` whose failures are swallowed;
every path past the three checks returns 200 `success`. -/
def github_webhook (cfg : Config) (req : WebhookRequest) (env : Env) : HandlerResult :=
  if !cfg.configured then
    { status := 500, body := .configError, calls := [] }
  else
    match req.payload with
    | none => { status := 400, body := .mustBeJson, calls := [] }
    | some payload =>
        match payload.installation_id with
        | none => { status := 400, body := .missingInstallationId, calls := [] }
        | some instId =>
            if instId == 0 then
              { status := 400, body := .missingInstallationId, calls := [] }
            else if req.eventType == some "issues" && payload.action == some "opened" then
              match payload.issue_title, payload.issue_body with
              | some title, some body =>
                  if title != "" && body != "" then
                    { status := 200, body := .success,
                      calls := processOpenedIssue cfg payload instId title body env }
                  else
                    { status := 200, body := .success, calls := [] }
              | _, _ => { status := 200, body := .success, calls := [] }
            else
              { status := 200, body := .success, calls := [] }

/-! ### Concrete fixtures used by witnesses and counterexamples -/

/-- A fully configured process. -/
def cfgOk : Config :=
  { app_id := some "12345", private_key := some "PRIVATE-KEY", model_ok := true }

/-- A process whose configuration failed to load (all globals `None`). -/
def cfgUnset : Config :=
  { app_id := none, private_key := none, model_ok := false }

/-- The payload of the spec's happy-path scenario. -/
def goodPayload : Payload :=
  { action := some "opened", installation_id := some 42,
    issue_title := some "Bug", issue_body := some "It crashes",
    issue_html_url := some "https://x/issues/1",
    issue_api_url := some "https://api.x/issues/1" }

/-- The same payload with the `installation` object absent. -/
def noInstPayload : Payload :=
  { goodPayload with installation_id := none }

/-- An `issues` event carrying `goodPayload`. -/
def issuesReq : WebhookRequest :=
  { eventType := some "issues", payload := some goodPayload }

/-- A request whose body is not well-formed JSON. -/
def nonJsonReq : WebhookRequest :=
  { eventType := some "issues", payload := none }

/-- A successful token-exchange response. -/
def okTokenResponse : HttpResult :=
  { statusCode := 201, content := "created",
    jsonFields := [("token", "ghs-abc"), ("expires_at", "2026-01-01T00:00:00Z")] }

/-- All three outbound calls succeed. -/
def happyEnv : Env :=
  { modelOutcome := .text " a summary ",
    tokenOutcome := .response okTokenResponse,
    commentOutcome := .response { statusCode := 201, content := "", jsonFields := [] } }

/-- The model call raises. -/
def modelFailEnv : Env :=
  { modelOutcome := .raises,
    tokenOutcome := .response okTokenResponse,
    commentOutcome := .response { statusCode := 201, content := "", jsonFields := [] } }

/-- Model succeeds, but the comment endpoint answers HTTP 500. -/
def comment500Env : Env :=
  { modelOutcome := .text "summary",
    tokenOutcome := .response okTokenResponse,
    commentOutcome := .response { statusCode := 500, content := "boom", jsonFields := [] } }

/-! ### C1: the JWT payload bounds -/

/-- C1, counterexample: the claim says the expiry claim is *strictly less*
than 10 minutes after the issued-at claim.  At current time 0 (any time
gives the same gap), `create_jwt` produces `exp - iat = 600` seconds —
exactly 10 minutes — so the claimed conjunction fails. -/
theorem create_jwt_strict_gap_fails :
    ¬ ((create_jwt "12345" 0).exp < (create_jwt "12345" 0).iat + 10 * 60 ∧
       (create_jwt "12345" 0).iat ≤ 0) := by
  intro h
  exact absurd h.1 (by decide)

/-- C1, amended: for every app id and current time, the expiry claim is
exactly 10 minutes after the issued-at claim (hence at most, but not
strictly less than, 10 minutes after it); it is strictly less than
10 minutes after the current time; and the issued-at claim is ≤ the
current time. -/
theorem create_jwt_payload_bounds (app_id : String) (now : Int) :
    (create_jwt app_id now).exp = (create_jwt app_id now).iat + 10 * 60 ∧
    (create_jwt app_id now).exp < now + 10 * 60 ∧
    (create_jwt app_id now).iat ≤ now := by
  simp only [create_jwt]
  omega

/-! ### C6 / C7: the unbound `response` in the `except` blocks -/

/-- C6: when the outbound POST fails at the network level,
`add_comment_to_issue` does not return `False`: the `except` block's
`print(f"Response content: {response.content}")` dereferences the local
`response`, which was never bound, and the resulting `UnboundLocalError`
propagates to the caller. -/
theorem add_comment_network_failure_raises :
    (add_comment_to_issue "https://api.x/issues/1" "ghs-abc" "hello"
        RequestOutcome.connectionError).result
      = Except.error "UnboundLocalError" := rfl

/-- C7: when the POST to the token-exchange endpoint fails at the network
level, `get_installation_token` does not return `None`: the same unbound
`response` dereference in its `except` block raises `UnboundLocalError`
to the caller. -/
theorem get_installation_token_network_failure_raises :
    (get_installation_token "12345" "PRIVATE-KEY" 42
        RequestOutcome.connectionError).result
      = Except.error "UnboundLocalError" := rfl

/-- On a non-success HTTP status the token exchange does return `None` and
logs the response body (the part of C7 the code gets right); stated as a
plain development lemma. -/
theorem get_installation_token_http_error_returns_none (r : HttpResult)
    (h : 400 ≤ r.statusCode) :
    get_installation_token "12345" "PRIVATE-KEY" 42 (.response r)
      = { result := .ok none,
          logs := ["🚨 Error getting installation token: HTTPError",
                   "Response content: " ++ r.content] } := by
  simp [get_installation_token, raiseForStatusFails, h]

/-! ### C8 / C9: missing or falsy installation id -/

/-- C8: with the app configured and a well-formed JSON body that carries no
installation id, the handler responds 400 `missing_installation_id` and
makes no outbound calls. -/
theorem github_webhook_missing_installation_id (cfg : Config)
    (req : WebhookRequest) (env : Env) (payload : Payload)
    (hcfg : cfg.configured = true)
    (hp : req.payload = some payload)
    (hid : payload.installation_id = none) :
    github_webhook cfg req env
      = { status := 400, body := .missingInstallationId, calls := [] } := by
  simp [github_webhook, hcfg, hp, hid]

/-- Witness for C8 at a concrete input. -/
theorem github_webhook_missing_installation_id_witness :
    github_webhook cfgOk { eventType := some "issues", payload := some noInstPayload }
        happyEnv
      = { status := 400, body := .missingInstallationId, calls := [] } :=
  github_webhook_missing_installation_id cfgOk
    { eventType := some "issues", payload := some noInstPayload } happyEnv
    noInstPayload (by decide) rfl rfl

/-- C9: an installation id that is present but `0` is falsy in Python, so
`if not installation_id` treats it as missing: 400 `missing_installation_id`
and no outbound calls. -/
theorem github_webhook_zero_installation_id (cfg : Config)
    (req : WebhookRequest) (env : Env) (payload : Payload)
    (hcfg : cfg.configured = true)
    (hp : req.payload = some payload)
    (hid : payload.installation_id = some 0) :
    github_webhook cfg req env
      = { status := 400, body := .missingInstallationId, calls := [] } := by
  simp [github_webhook, hcfg, hp, hid]

/-- Witness for C9 at a concrete input. -/
theorem github_webhook_zero_installation_id_witness :
    github_webhook cfgOk
        { eventType := some "issues",
          payload := some { goodPayload with installation_id := some 0 } } happyEnv
      = { status := 400, body := .missingInstallationId, calls := [] } :=
  github_webhook_zero_installation_id cfgOk
    { eventType := some "issues",
      payload := some { goodPayload with installation_id := some 0 } } happyEnv
    { goodPayload with installation_id := some 0 } (by decide) rfl rfl

/-! ### Handler reduction helper -/

/-- When the three validations pass and the event is `issues`/`opened` with
truthy title and body, the handler returns 200 `success` and performs
exactly the calls of `processOpenedIssue`. -/
theorem github_webhook_opened_reduce (cfg : Config) (req : WebhookRequest)
    (env : Env) (payload : Payload) (instId : Int) (title body : String)
    (hcfg : cfg.configured = true) (hp : req.payload = some payload)
    (hid : payload.installation_id = some instId) (hid0 : instId ≠ 0)
    (hev : req.eventType = some "issues") (hact : payload.action = some "opened")
    (ht : payload.issue_title = some title) (ht0 : title ≠ "")
    (hb : payload.issue_body = some body) (hb0 : body ≠ "") :
    github_webhook cfg req env
      = { status := 200, body := .success,
          calls := processOpenedIssue cfg payload instId title body env } := by
  simp [github_webhook, hcfg, hp, hid, hid0, hev, hact, ht, ht0, hb, hb0]

/-! ### C2: the model → token → comment chain -/

/-- C2: for an `issues`/`opened` event with a truthy installation id and
truthy title and body (on a configured app), the handler's outbound calls
are exactly: one model call; if the model call returns, one token-exchange
call after it; and if the token exchange yields a truthy token (line 165's
`if access_token:` — a `None` or empty-string token counts as "no token"),
one comment call after that — in that order, each upstream failure
short-circuiting the rest of the chain. -/
theorem github_webhook_opened_issue_chain (cfg : Config) (req : WebhookRequest)
    (env : Env) (payload : Payload) (instId : Int) (title body : String)
    (hcfg : cfg.configured = true) (hp : req.payload = some payload)
    (hid : payload.installation_id = some instId) (hid0 : instId ≠ 0)
    (hev : req.eventType = some "issues") (hact : payload.action = some "opened")
    (ht : payload.issue_title = some title) (ht0 : title ≠ "")
    (hb : payload.issue_body = some body) (hb0 : body ≠ "") :
    (env.modelOutcome = .raises →
      (github_webhook cfg req env).calls = [Call.model (buildPrompt title body)]) ∧
    (∀ t, env.modelOutcome = .text t →
      ((∀ s, s ≠ "" →
          (get_installation_token (pyStr cfg.app_id) (pyStr cfg.private_key) instId
            env.tokenOutcome).result ≠ Except.ok (some s)) →
        (github_webhook cfg req env).calls
          = [Call.model (buildPrompt title body), Call.tokenExchange instId]) ∧
      (∀ s, s ≠ "" →
        (get_installation_token (pyStr cfg.app_id) (pyStr cfg.private_key) instId
            env.tokenOutcome).result = Except.ok (some s) →
        (github_webhook cfg req env).calls
          = [Call.model (buildPrompt title body), Call.tokenExchange instId,
             Call.comment (pyStr payload.issue_api_url) (buildComment t.trim)])) := by
  rw [github_webhook_opened_reduce cfg req env payload instId title body
    hcfg hp hid hid0 hev hact ht ht0 hb hb0]
  refine ⟨?_, ?_⟩
  · intro hm
    simp [processOpenedIssue, hm]
  · intro t hm
    refine ⟨?_, ?_⟩
    · intro hfail
      rcases hres : (get_installation_token (pyStr cfg.app_id) (pyStr cfg.private_key)
          instId env.tokenOutcome).result with e | v
      · simp [processOpenedIssue, hm, hres]
      · rcases v with _ | s
        · simp [processOpenedIssue, hm, hres, strOptTruthy]
        · by_cases hs : s = ""
          · subst hs
            simp [processOpenedIssue, hm, hres, strOptTruthy]
          · exact absurd hres (hfail s hs)
    · intro s hs hres
      simp [processOpenedIssue, hm, hres, strOptTruthy, hs]

/-- Witness for C2 at a concrete input: with the model call raising, the
only outbound call is the model call. -/
theorem github_webhook_opened_issue_chain_witness :
    (github_webhook cfgOk issuesReq modelFailEnv).calls
      = [Call.model (buildPrompt "Bug" "It crashes")] :=
  (github_webhook_opened_issue_chain cfgOk issuesReq modelFailEnv goodPayload 42
      "Bug" "It crashes" (by decide) rfl rfl (by decide) rfl rfl rfl (by decide)
      rfl (by decide)).1 rfl

/-! ### C3: non-JSON bodies -/

/-- C3, counterexample: the claim asserts status 400 for *every* non-JSON
request, but the handler checks configuration before `request.is_json`, so
on an unconfigured process a non-JSON request gets 500 `config_error`. -/
theorem github_webhook_nonjson_unconfigured_not_400 :
    nonJsonReq.payload = none ∧
    github_webhook cfgUnset nonJsonReq happyEnv
      = { status := 500, body := .configError, calls := [] } ∧
    (github_webhook cfgUnset nonJsonReq happyEnv).status ≠ 400 :=
  ⟨rfl, rfl, by decide⟩

/-- C3, amended: on a configured app, every request whose body is not
well-formed JSON is rejected with status 400. -/
theorem github_webhook_nonjson_400 (cfg : Config) (req : WebhookRequest)
    (env : Env) (hcfg : cfg.configured = true) (hj : req.payload = none) :
    github_webhook cfg req env
      = { status := 400, body := .mustBeJson, calls := [] } := by
  simp [github_webhook, hcfg, hj]

/-- Witness for the amended C3 at a concrete input. -/
theorem github_webhook_nonjson_400_witness :
    github_webhook cfgOk nonJsonReq happyEnv
      = { status := 400, body := RespBody.mustBeJson, calls := [] } :=
  github_webhook_nonjson_400 cfgOk nonJsonReq happyEnv (by decide) rfl

/-! ### C4: processing failures never change the 200 response -/

/-- C4: once the config, JSON and installation-id validations pass, an
`issues`/`opened` event is always answered 200 `success`, whatever the
outcomes of the model call, the token exchange and the comment post. -/
theorem github_webhook_opened_issue_always_success (cfg : Config)
    (req : WebhookRequest) (env : Env) (payload : Payload) (instId : Int)
    (hcfg : cfg.configured = true) (hp : req.payload = some payload)
    (hid : payload.installation_id = some instId) (hid0 : instId ≠ 0)
    (hev : req.eventType = some "issues") (hact : payload.action = some "opened") :
    (github_webhook cfg req env).status = 200 ∧
    (github_webhook cfg req env).body = RespBody.success := by
  have hex : ∃ cs, github_webhook cfg req env = ⟨200, RespBody.success, cs⟩ := by
    rcases htit : payload.issue_title with _ | title
    · exact ⟨[], by simp [github_webhook, hcfg, hp, hid, hid0, hev, hact, htit]⟩
    · rcases hbody : payload.issue_body with _ | body
      · exact ⟨[], by simp [github_webhook, hcfg, hp, hid, hid0, hev, hact, htit, hbody]⟩
      · by_cases hc : (title != "" && body != "") = true
        · exact ⟨processOpenedIssue cfg payload instId title body env,
            by simp [github_webhook, hcfg, hp, hid, hid0, hev, hact, htit, hbody, hc]⟩
        · exact ⟨[],
            by simp [github_webhook, hcfg, hp, hid, hid0, hev, hact, htit, hbody, hc]⟩
  rcases hex with ⟨cs, hcs⟩
  rw [hcs]
  exact ⟨rfl, rfl⟩

/-- Witness for C4 at a concrete input in which the comment endpoint
answers HTTP 500: the response is still 200 `success`. -/
theorem github_webhook_opened_issue_always_success_witness :
    (github_webhook cfgOk issuesReq comment500Env).status = 200 ∧
    (github_webhook cfgOk issuesReq comment500Env).body = RespBody.success :=
  github_webhook_opened_issue_always_success cfgOk issuesReq comment500Env
    goodPayload 42 (by decide) rfl rfl (by decide) rfl rfl

/-! ### C5: other event types -/

/-- C5, counterexample: the claim asserts status 200 for every event that is
not `issues`/`opened`, but the installation-id check runs before the event
dispatch, so a `push` event with no installation id is answered 400 (with
zero outbound calls). -/
theorem github_webhook_push_missing_inst_not_200 :
    ({ eventType := some "push", payload := some noInstPayload } :
        WebhookRequest).eventType ≠ some "issues" ∧
    github_webhook cfgOk
        { eventType := some "push", payload := some noInstPayload } happyEnv
      = { status := 400, body := .missingInstallationId, calls := [] } :=
  ⟨by decide, rfl⟩

/-- C5, amended: every request that passes the config, JSON and
installation-id validations and is not an `issues`/`opened` event causes
zero outbound calls and is answered 200. -/
theorem github_webhook_other_event_noop (cfg : Config) (req : WebhookRequest)
    (env : Env) (payload : Payload) (instId : Int)
    (hcfg : cfg.configured = true) (hp : req.payload = some payload)
    (hid : payload.installation_id = some instId) (hid0 : instId ≠ 0)
    (hne : ¬ (req.eventType = some "issues" ∧ payload.action = some "opened")) :
    (github_webhook cfg req env).calls = [] ∧
    (github_webhook cfg req env).status = 200 := by
  have hfalse : (req.eventType == some "issues" && payload.action == some "opened")
      = false := by
    rcases Bool.eq_false_or_eq_true
        (req.eventType == some "issues" && payload.action == some "opened") with h | h
    · rw [Bool.and_eq_true, beq_iff_eq, beq_iff_eq] at h
      exact absurd h hne
    · exact h
  simp [github_webhook, hcfg, hp, hid, hid0, hfalse]

/-- Witness for the amended C5 at a concrete input (`push` event with an
installation id). -/
theorem github_webhook_other_event_noop_witness :
    (github_webhook cfgOk { eventType := some "push", payload := some goodPayload }
        happyEnv).calls = [] ∧
    (github_webhook cfgOk { eventType := some "push", payload := some goodPayload }
        happyEnv).status = 200 :=
  github_webhook_other_event_noop cfgOk
    { eventType := some "push", payload := some goodPayload } happyEnv goodPayload 42
    (by decide) rfl rfl (by decide) (by decide)

/-! ### C10: empty-string title or body -/

/-- C10: for an `issues`/`opened` event (past the validations) whose title
or body is present but the empty string, Python truthiness makes
`if issue_title and issue_body` fail, so processing is skipped — zero
outbound calls — and the response is still 200. -/
theorem github_webhook_empty_title_or_body_noop (cfg : Config)
    (req : WebhookRequest) (env : Env) (payload : Payload) (instId : Int)
    (hcfg : cfg.configured = true) (hp : req.payload = some payload)
    (hid : payload.installation_id = some instId) (hid0 : instId ≠ 0)
    (hev : req.eventType = some "issues") (hact : payload.action = some "opened")
    (hemp : payload.issue_title = some "" ∨ payload.issue_body = some "") :
    (github_webhook cfg req env).calls = [] ∧
    (github_webhook cfg req env).status = 200 := by
  rcases hemp with ht | hb
  · rcases hbody : payload.issue_body with _ | b <;>
      simp [github_webhook, hcfg, hp, hid, hid0, hev, hact, ht, hbody]
  · rcases htit : payload.issue_title with _ | t <;>
      simp [github_webhook, hcfg, hp, hid, hid0, hev, hact, htit, hb]

/-- Witness for C10 at a concrete input (body present but empty). -/
theorem github_webhook_empty_title_or_body_noop_witness :
    (github_webhook cfgOk
        { eventType := some "issues",
          payload := some { goodPayload with issue_body := some "" } }
        happyEnv).calls = [] ∧
    (github_webhook cfgOk
        { eventType := some "issues",
          payload := some { goodPayload with issue_body := some "" } }
        happyEnv).status = 200 :=
  github_webhook_empty_title_or_body_noop cfgOk
    { eventType := some "issues",
      payload := some { goodPayload with issue_body := some "" } } happyEnv
    { goodPayload with issue_body := some "" } 42
    (by decide) rfl rfl (by decide) rfl rfl (Or.inr rfl)

end App
